import Mathlib

/-!
Verification of the response-matching and conversational-state engine of
`chatbot.py`: the ordered pattern registry (`ChatResponder`), the resolver
(`get_response` / `get_personal_response`), and the dispatcher with its
silence / timeout / startup-grace gates (`handle_groupchat_message`).

Modelling conventions:
* Text is `List Char`; Python `str.lower()` is `lower` below.
* Python `None` is `Option.none`; a Python string that is tested for
  truthiness is modelled so that `[]` (resp. `some []`) is falsy.
* Time is a natural number counted in minutes, so `datetime.timedelta
  (minutes=k)` is `+ k`; `datetime.datetime.now()` is an explicit `now`
  argument.
* The concrete regular expressions of the source are modelled as executable
  matchers (`matches_quiet`, `matches_okay`, `matches_timeout`, `addressed`)
  implementing Python `re.search` semantics (word boundaries, multiline `^`)
  for those patterns.
-/

namespace Chatbot

/-- Python `re` word character (`\w`): alphanumeric or underscore. -/
def isWordChar (c : Char) : Bool := c.isAlphanum || c == '_'

/-- Whether position `i` of `text` holds a word character (false past the end). -/
def wordAt (text : List Char) (i : Nat) : Bool :=
  match text.get? i with
  | some c => isWordChar c
  | none => false

/-- Python `re` `\b`: a word boundary between positions `i - 1` and `i`
(position 0 is preceded by no character). -/
def boundary (text : List Char) (i : Nat) : Bool :=
  (if i = 0 then false else wordAt text (i - 1)) != wordAt text i

/-- Python `re` `^` under `re.M`: start of the string or right after a newline. -/
def lineStart (text : List Char) (i : Nat) : Bool :=
  i == 0 ||
    (match text.get? (i - 1) with
     | some c => c == '\n'
     | none => false)

/-- The literal `pat` occurs in `text` starting at position `i`. -/
def strAt (text pat : List Char) (i : Nat) : Bool :=
  (text.drop i).take pat.length == pat

/-- `re.search(r'^(be )?quiet\b', text, re.M)`: the `start_silence` pattern. -/
def matches_quiet (text : List Char) : Bool :=
  (List.range (text.length + 1)).any fun i =>
    lineStart text i &&
      ((strAt text "quiet".toList i && boundary text (i + 5)) ||
       (strAt text "be quiet".toList i && boundary text (i + 8)))

/-- `re.search(r'^okay,?', text, re.M)`: the `end_silence` pattern (the trailing
optional comma constrains nothing). -/
def matches_okay (text : List Char) : Bool :=
  (List.range (text.length + 1)).any fun i =>
    lineStart text i && strAt text "okay".toList i

/-- One alternative `\b…\b`: the phrase occurs at `i` between word boundaries. -/
def wordPhraseAt (text phrase : List Char) (i : Nat) : Bool :=
  boundary text i && strAt text phrase i && boundary text (i + phrase.length)

/-- The phrase occurs somewhere in `text` between word boundaries. -/
def containsWordPhrase (text phrase : List Char) : Bool :=
  (List.range (text.length + 1)).any fun i => wordPhraseAt text phrase i

/-- `re.search(r'\b(that\x27?s )?enough\b|\btake a break\b|\bhush\b', text)`:
the `set_timeout` pattern. -/
def matches_timeout (text : List Char) : Bool :=
  ((List.range (text.length + 1)).any fun i =>
    boundary text i &&
      ((strAt text "enough".toList i && boundary text (i + 6)) ||
       (strAt text "thats enough".toList i && boundary text (i + 12)) ||
       (strAt text "that's enough".toList i && boundary text (i + 13)))) ||
  containsWordPhrase text "take a break".toList ||
  containsWordPhrase text "hush".toList

/-- The alternation group `(name1|...|namek)` of the addressing pattern at
position `i`: with an empty name list `'|'.join` yields the empty group `()`,
which matches the empty string at any position. -/
def nameGroupAt (names : List (List Char)) (text : List Char) (i : Nat) : Bool :=
  match names with
  | [] => true
  | _ :: _ => names.any fun n => strAt text n i && boundary text (i + n.length)

/-- The addressing test of the dispatcher:
`re.search(r'\b(%s)\b' % '|'.join(self.my_names), msgtext)` on the lowercased
body (bot names are taken as literal words). -/
def addressed (names : List (List Char)) (text : List Char) : Bool :=
  (List.range (text.length + 1)).any fun i =>
    boundary text i && nameGroupAt names text i

/-- Python `str.lower()`. -/
def lower (t : List Char) : List Char := t.map Char.toLower

/-- A rule registered in a `ChatResponder`: `only_for` from the
`only_respond_to` keyword, the tuple of match expressions (each modelled by its
`re.search` test), and the handler, which may read and update the bot state and
returns the reply text (`[]` models Python `None` or `''`, both falsy). -/
structure Rule (σ : Type) where
  only_for : Option (List Char)
  expressions : List (List Char → Bool)
  handler : σ → List Char → List Char → σ × List Char

/-- The inner loop of `ChatResponder.get_response`: try each expression of one
rule against the text; on a match invoke the handler; stop at the first
non-empty reply, otherwise continue with the updated state. -/
def tryPatterns {σ : Type} (handler : σ → List Char → List Char → σ × List Char)
    (text user : List Char) : List (List Char → Bool) → σ → σ × List Char
  | [], s => (s, [])
  | e :: rest, s =>
    if e text then
      let p := handler s text user
      if p.2.isEmpty then tryPatterns handler text user rest p.1 else p
    else tryPatterns handler text user rest s

/-- `ChatResponder.get_response`: walk the registry in order, consider only
rules whose `only_for` is `None`, and return the first non-empty reply
(`[]` models falling through to `return None`). -/
def get_response {σ : Type} : List (Rule σ) → σ → List Char → List Char → σ × List Char
  | [], s, _, _ => (s, [])
  | r :: rest, s, text, user =>
    match r.only_for with
    | some _ => get_response rest s text user
    | none =>
      let p := tryPatterns r.handler text user r.expressions s
      if p.2.isEmpty then get_response rest p.1 text user else p

/-- `ChatResponder.get_personal_response`: same walk, but only over rules whose
(truthy) `only_for` equals the target user case-insensitively. -/
def get_personal_response {σ : Type} :
    List (Rule σ) → σ → List Char → List Char → List Char → σ × List Char
  | [], s, _, _, _ => (s, [])
  | r :: rest, s, text, user, target =>
    match r.only_for with
    | some a =>
      if !a.isEmpty && (lower a == lower target) then
        let p := tryPatterns r.handler text user r.expressions s
        if p.2.isEmpty then get_personal_response rest p.1 text user target else p
      else get_personal_response rest s text user target
    | none => get_personal_response rest s text user target

/-- The conversation state of a `ChatBot`: the internal attributes of the class
(`prev_message`, `curr_message`, `timeout`, `silent`) plus the startup guard.
Python `''` is `some []` for `curr_message` and `[]` for `prev_message`. -/
structure BotState where
  prev_message : List Char
  curr_message : Option (List Char)
  timeout : Option Nat
  silent : Bool
  startup : Option Nat
deriving DecidableEq

/-- `ChatBot.update_message_state`: if a truthy current message is recorded,
shift it into `prev_message` and clear `curr_message` to `None`. -/
def update_message_state (s : BotState) : BotState :=
  match s.curr_message with
  | some m => if m.isEmpty then s else { s with prev_message := m, curr_message := none }
  | none => s

/-- Reply text of `start_silence`. -/
def quiet_reply : List Char := "sorry. i'll put a lid on it.".toList

/-- Reply text of `set_timeout`. -/
def timeout_reply : List Char := "i'm gonna stay quiet for a bit.".toList

/-- `ChatBot.start_silence`, registered first with pattern `^(be )?quiet\b`. -/
def start_silence : Rule BotState where
  only_for := none
  expressions := [matches_quiet]
  handler := fun s _ _ => ({ s with silent := true }, quiet_reply)

/-- `ChatBot.end_silence`, registered second with pattern `^okay,?`; replies
`'thanks, %s' % user.lower()`. -/
def end_silence : Rule BotState where
  only_for := none
  expressions := [matches_okay]
  handler := fun s _ user =>
    ({ s with silent := false, timeout := none }, "thanks, ".toList ++ lower user)

/-- `ChatBot.set_timeout`, registered third with the enough / take-a-break /
hush pattern; the expiry is 10 minutes from `now`. -/
def set_timeout (now : Nat) : Rule BotState where
  only_for := none
  expressions := [matches_timeout]
  handler := fun s _ _ => ({ s with timeout := some (now + 10) }, timeout_reply)

/-- The `me_responder` registry, in registration (decorator, source) order. -/
def me_responder (now : Nat) : List (Rule BotState) :=
  [start_silence, end_silence, set_timeout now]

/-- One entry of the `me_responds` / `generic_responds` configuration tables:
the pattern is modelled by its `re.search` test on the lowercased body, the
reply template by the result of `.format` applied to the sender's short name. -/
structure TableEntry where
  pat : List Char → Bool
  template : List Char → List Char

/-- The per-bot configuration the dispatcher reads: the bot's names, the
ignore list (lowercased sender identifiers), and the two loaded tables. -/
structure Config where
  my_names : List (List Char)
  ignore_from : List (List Char)
  me_responds : List TableEntry
  chat_responds : List TableEntry

/-- An incoming groupchat stanza: the sender resource and the body, `none`
when the body is missing or cannot be decoded as text. -/
structure Msg where
  from_resource : List Char
  body : Option (List Char)

/-- `nicefrom = re.sub(r'\s.*$', '', msgfrom)`: strip from the first
whitespace character on (for resource names without embedded newlines). -/
def nicefrom (msgfrom : List Char) : List Char :=
  msgfrom.takeWhile fun c => !c.isWhitespace

/-- The `me_responds` table loop of the dispatcher: the first entry whose
pattern matches the lowercased body yields its template. -/
def table_lookup : List TableEntry → List Char → Option (List Char → List Char)
  | [], _ => none
  | e :: rest, t => if e.pat t then some e.template else table_lookup rest t

/-- `ChatBot.send_to_chat`: emit the reply to the room and perform the
`update_message_state` bookkeeping pass. -/
def send_to_chat (s : BotState) (reply : List Char) : BotState × Option (List Char) :=
  (update_message_state s, some reply)

/-- The silence and timeout gates at the end of `handle_groupchat_message`
(reached by fall-through when no addressed rule or table entry replied):
while silent, or while a timeout has not expired, only bookkeeping runs; a
timeout whose expiry has passed is cleared. -/
def silence_timeout_tail (s : BotState) (now : Nat) : BotState × Option (List Char) :=
  if s.silent then (update_message_state s, none)
  else
    match s.timeout with
    | some e => if now < e then (update_message_state s, none) else ({ s with timeout := none }, none)
    | none => (s, none)

/-- Body of `ChatBot.handle_groupchat_message` after the startup-grace check:
decode (drop on failure), record the lowercased body as `curr_message`, drop
ignored senders, then on an addressed message run the `me_responder` registry,
the silence gate, and the `me_responds` table; finally fall through to the
silence / timeout tail. -/
def handle_decoded (cfg : Config) (s : BotState) (msg : Msg) (now : Nat) :
    BotState × Option (List Char) :=
  match msg.body with
  | none => (s, none)
  | some body =>
    let msgtext := lower body
    let s1 : BotState := { s with curr_message := some msgtext }
    if cfg.ignore_from.contains (lower msg.from_resource) then (s1, none)
    else if addressed cfg.my_names msgtext then
      let p := get_response (me_responder now) s1 msgtext (nicefrom msg.from_resource)
      if !p.2.isEmpty then send_to_chat p.1 p.2
      else if p.1.silent then (update_message_state p.1, none)
      else
        match table_lookup cfg.me_responds msgtext with
        | some tmpl => send_to_chat p.1 (tmpl (nicefrom msg.from_resource))
        | none => silence_timeout_tail p.1 now
    else silence_timeout_tail s1 now

/-- `ChatBot.handle_groupchat_message`: the startup-grace check (discard while
`startup > now`, clear the guard once it has elapsed) followed by the decoded
body of the dispatcher; returns the state after the pass and the reply sent to
the room, if any. -/
def handle_groupchat_message (cfg : Config) (s : BotState) (msg : Msg) (now : Nat) :
    BotState × Option (List Char) :=
  match s.startup with
  | some g => if now < g then (s, none) else handle_decoded cfg { s with startup := none } msg now
  | none => handle_decoded cfg s msg now

/-- The startup guard set on (re)connect: one minute past the current time. -/
def initial_startup (t0 : Nat) : Nat := t0 + 1

/-- The state of a freshly constructed `ChatBot` that (re)connected at `t0`:
the class attributes of the source plus the startup guard. -/
def initial_state (t0 : Nat) : BotState where
  prev_message := []
  curr_message := some []
  timeout := none
  silent := false
  startup := some (initial_startup t0)

/-! ## Helper lemmas -/

lemma update_message_state_silent (s : BotState) :
    (update_message_state s).silent = s.silent := by
  unfold update_message_state
  cases s.curr_message with
  | none => rfl
  | some m => cases m with
    | nil => rfl
    | cons c l => rfl

lemma update_message_state_timeout (s : BotState) :
    (update_message_state s).timeout = s.timeout := by
  unfold update_message_state
  cases s.curr_message with
  | none => rfl
  | some m => cases m with
    | nil => rfl
    | cons c l => rfl

lemma update_message_state_of_curr (s : BotState) (m : List Char)
    (h : s.curr_message = some m) (hne : m ≠ []) :
    update_message_state s = { s with prev_message := m, curr_message := none } := by
  unfold update_message_state
  rw [h]
  cases m with
  | nil => exact absurd rfl hne
  | cons c l => rfl

lemma get_response_append {σ : Type} (xs ys : List (Rule σ)) (s : σ) (t u : List Char) :
    get_response (xs ++ ys) s t u =
      (if (get_response xs s t u).2.isEmpty
       then get_response ys (get_response xs s t u).1 t u
       else get_response xs s t u) := by
  induction xs generalizing s with
  | nil => simp [get_response]
  | cons r rest ih =>
    cases hof : r.only_for with
    | some a =>
      simp only [List.cons_append, get_response, hof]
      exact ih s
    | none =>
      simp only [List.cons_append, get_response, hof]
      cases he : (tryPatterns r.handler t u r.expressions s).2.isEmpty <;> simp [he, ih]

lemma quiet_reply_isEmpty : quiet_reply.isEmpty = false := by decide

lemma timeout_reply_isEmpty : timeout_reply.isEmpty = false := by decide

lemma thanks_isEmpty (u : List Char) : ("thanks, ".toList ++ lower u).isEmpty = false := by
  have h : "thanks, ".toList = 't' :: "hanks, ".toList := rfl
  rw [h]
  rfl

/-- Evaluation of the concrete `me_responder` registry: first-match wins in
registration order, and each control handler always returns non-empty text. -/
lemma me_responder_eval (now : Nat) (s : BotState) (t u : List Char) :
    get_response (me_responder now) s t u =
      if matches_quiet t then ({ s with silent := true }, quiet_reply)
      else if matches_okay t then
        ({ s with silent := false, timeout := none }, "thanks, ".toList ++ lower u)
      else if matches_timeout t then ({ s with timeout := some (now + 10) }, timeout_reply)
      else (s, []) := by
  by_cases h1 : matches_quiet t <;> by_cases h2 : matches_okay t <;>
    by_cases h3 : matches_timeout t <;>
      simp [me_responder, get_response, tryPatterns, start_silence, end_silence, set_timeout,
            h1, h2, h3, quiet_reply_isEmpty, timeout_reply_isEmpty, thanks_isEmpty]

lemma silence_timeout_tail_snd (s : BotState) (now : Nat) :
    (silence_timeout_tail s now).2 = none := by
  unfold silence_timeout_tail
  by_cases hs : s.silent <;> simp [hs]
  cases s.timeout with
  | none => simp
  | some e => by_cases hn : now < e <;> simp [hn]

/-! ## C1: resolver precedence -/

/-- C1. Resolver precedence: in a registry `pre ++ R1 :: (mid ++ R2 :: post)`
where the rules before `R1` all decline (threading the state to `s1`), if
`R1`'s pattern pass returns non-empty text `r`, resolution returns exactly
`(s2, r)` — for every choice of the later rules `mid`, `R2` and `post`, so
`R2`'s output is never returned; if `R1`'s pass declines, resolution continues
with the rules after `R1`, so `R2` is tried; and within one rule, a matching
expression whose handler declines passes control to the next expression of the
same rule. -/
theorem C1_resolver_precedence {σ : Type} (pre mid post : List (Rule σ)) (R1 R2 : Rule σ)
    (s s1 : σ) (t u : List Char)
    (hpre : get_response pre s t u = (s1, []))
    (hof : R1.only_for = none)
    (_hm1 : ∃ e ∈ R1.expressions, e t = true)
    (_hm2 : ∃ e ∈ R2.expressions, e t = true) :
    (∀ s2 r, tryPatterns R1.handler t u R1.expressions s1 = (s2, r) → r ≠ [] →
        get_response (pre ++ R1 :: (mid ++ R2 :: post)) s t u = (s2, r)) ∧
    (∀ s2, tryPatterns R1.handler t u R1.expressions s1 = (s2, []) →
        get_response (pre ++ R1 :: (mid ++ R2 :: post)) s t u
          = get_response (mid ++ R2 :: post) s2 t u) ∧
    (∀ e es s0, e t = true → (R1.handler s0 t u).2 = [] →
        tryPatterns R1.handler t u (e :: es) s0
          = tryPatterns R1.handler t u es (R1.handler s0 t u).1) := by
  refine ⟨?_, ?_, ?_⟩
  · intro s2 r htry hr
    rw [get_response_append, hpre]
    simp only [List.isEmpty_nil, if_true]
    simp only [get_response, hof, htry]
    have : r.isEmpty = false := by
      cases r with
      | nil => exact absurd rfl hr
      | cons c l => rfl
    simp [this]
  · intro s2 htry
    rw [get_response_append, hpre]
    simp only [List.isEmpty_nil, if_true]
    simp [get_response, hof, htry]
  · intro e es s0 he hdec
    simp [tryPatterns, he, hdec, List.isEmpty_nil]

/-- A sample rule for the C1 witness: on "ping" it increments the state and
replies "pong". -/
def ping_rule : Rule Nat where
  only_for := none
  expressions := [fun t => t == "ping".toList]
  handler := fun s _ _ => (s + 1, "pong".toList)

/-- A later sample rule whose pattern also matches "ping" but whose output
must never be returned ahead of `ping_rule`. -/
def ping_rule_late : Rule Nat where
  only_for := none
  expressions := [fun t => t == "ping".toList]
  handler := fun s _ _ => (s + 7, "boom".toList)

/-- Witness for C1 at a concrete registry: with both rules matching "ping",
resolution returns the earlier rule's output. -/
theorem C1_resolver_precedence_witness :
    get_response ([] ++ ping_rule :: ([] ++ ping_rule_late :: [])) 0
      "ping".toList "u".toList = (1, "pong".toList) :=
  (C1_resolver_precedence [] [] [] ping_rule ping_rule_late 0 0 "ping".toList "u".toList
      rfl rfl ⟨fun t => t == "ping".toList, by simp [ping_rule], rfl⟩
      ⟨fun t => t == "ping".toList, by simp [ping_rule_late], rfl⟩).1
    1 "pong".toList rfl (by decide)

/-! ## Evaluation lemmas for the dispatcher -/

/-- `handle_groupchat_message` once the startup guard has been cleared. -/
lemma handle_no_startup (cfg : Config) (s : BotState) (msg : Msg) (now : Nat)
    (hst : s.startup = none) :
    handle_groupchat_message cfg s msg now = handle_decoded cfg s msg now := by
  simp [handle_groupchat_message, hst]

/-- The dispatcher on an undecodable body. -/
lemma handle_decoded_no_body (cfg : Config) (s : BotState) (msg : Msg) (now : Nat)
    (hb : msg.body = none) :
    handle_decoded cfg s msg now = (s, none) := by
  simp [handle_decoded, hb]

/-- The dispatcher on an ignored sender: `curr_message` is recorded first,
then the message is dropped. -/
lemma handle_decoded_ignored (cfg : Config) (s : BotState) (msg : Msg) (now : Nat)
    (b : List Char) (hb : msg.body = some b)
    (hig : cfg.ignore_from.contains (lower msg.from_resource) = true) :
    handle_decoded cfg s msg now = ({ s with curr_message := some (lower b) }, none) := by
  simp only [handle_decoded, hb, hig, if_true]

/-- The dispatcher on a non-addressed message from a non-ignored sender:
record the message, then fall through to the silence / timeout tail. -/
lemma handle_decoded_not_addressed (cfg : Config) (s : BotState) (msg : Msg) (now : Nat)
    (b : List Char) (hb : msg.body = some b)
    (hig : cfg.ignore_from.contains (lower msg.from_resource) = false)
    (ha : addressed cfg.my_names (lower b) = false) :
    handle_decoded cfg s msg now
      = silence_timeout_tail { s with curr_message := some (lower b) } now := by
  simp only [handle_decoded, hb, hig, ha, Bool.false_eq_true, if_false]

/-- The dispatcher on an addressed message from a non-ignored sender, with the
`me_responder` registry evaluated: the three control rules in order, then the
silence gate, then the `me_responds` table, then the tail. -/
lemma handle_decoded_addressed (cfg : Config) (s : BotState) (msg : Msg) (now : Nat)
    (b : List Char) (hb : msg.body = some b)
    (hig : cfg.ignore_from.contains (lower msg.from_resource) = false)
    (ha : addressed cfg.my_names (lower b) = true) :
    handle_decoded cfg s msg now =
      (if matches_quiet (lower b) then
        send_to_chat { s with curr_message := some (lower b), silent := true } quiet_reply
      else if matches_okay (lower b) then
        send_to_chat { s with curr_message := some (lower b), silent := false, timeout := none }
          ("thanks, ".toList ++ lower (nicefrom msg.from_resource))
      else if matches_timeout (lower b) then
        send_to_chat { s with curr_message := some (lower b), timeout := some (now + 10) }
          timeout_reply
      else if s.silent then
        (update_message_state { s with curr_message := some (lower b) }, none)
      else
        match table_lookup cfg.me_responds (lower b) with
        | some tmpl =>
            send_to_chat { s with curr_message := some (lower b) }
              (tmpl (nicefrom msg.from_resource))
        | none => silence_timeout_tail { s with curr_message := some (lower b) } now) := by
  simp only [handle_decoded, hb, hig, Bool.false_eq_true, if_false, ha, if_true]
  rw [me_responder_eval]
  by_cases h1 : matches_quiet (lower b) <;> by_cases h2 : matches_okay (lower b) <;>
    by_cases h3 : matches_timeout (lower b) <;>
      simp [h1, h2, h3, quiet_reply_isEmpty, timeout_reply_isEmpty, thanks_isEmpty]

/-- While silent, the dispatcher's result does not depend on either response
table: the `me_responds` loop and the generic table are never consulted. -/
lemma handle_decoded_tables_silent (cfg : Config) (meT meT' chT chT' : List TableEntry)
    (s : BotState) (msg : Msg) (now : Nat) (hsil : s.silent = true) :
    handle_decoded { cfg with me_responds := meT, chat_responds := chT } s msg now
      = handle_decoded { cfg with me_responds := meT', chat_responds := chT' } s msg now := by
  cases hb : msg.body with
  | none =>
    rw [handle_decoded_no_body _ _ _ _ hb, handle_decoded_no_body _ _ _ _ hb]
  | some b =>
    cases hig : cfg.ignore_from.contains (lower msg.from_resource) with
    | true =>
      rw [handle_decoded_ignored { cfg with me_responds := meT, chat_responds := chT }
            _ _ _ b hb hig,
          handle_decoded_ignored { cfg with me_responds := meT', chat_responds := chT' }
            _ _ _ b hb hig]
    | false =>
      cases ha : addressed cfg.my_names (lower b) with
      | false =>
        rw [handle_decoded_not_addressed { cfg with me_responds := meT, chat_responds := chT }
              _ _ _ b hb hig ha,
            handle_decoded_not_addressed { cfg with me_responds := meT', chat_responds := chT' }
              _ _ _ b hb hig ha]
      | true =>
        rw [handle_decoded_addressed { cfg with me_responds := meT, chat_responds := chT }
              _ _ _ b hb hig ha,
            handle_decoded_addressed { cfg with me_responds := meT', chat_responds := chT' }
              _ _ _ b hb hig ha]
        simp [hsil]

/-! ## C2: silence gate -/

/-- C2. Silence gate: while `silent` is set (a) the dispatcher's outcome is
independent of both the `me_responds` and the generic `chat_responds` tables
(no generic / chat-table reply is ever produced from them), and (b) an
addressed message matching the resume pattern `^okay,?` (and not preempted by
the earlier-registered quiet rule) turns `silent` off and is answered with
`thanks, <sender>`. -/
theorem C2_silence_gate (cfg : Config) (s : BotState) (msg : Msg) (now : Nat)
    (hsil : s.silent = true) :
    (∀ meT meT' chT chT',
        handle_groupchat_message { cfg with me_responds := meT, chat_responds := chT } s msg now
          = handle_groupchat_message { cfg with me_responds := meT', chat_responds := chT' }
              s msg now) ∧
    (∀ b, s.startup = none → msg.body = some b →
        cfg.ignore_from.contains (lower msg.from_resource) = false →
        addressed cfg.my_names (lower b) = true →
        matches_okay (lower b) = true → matches_quiet (lower b) = false →
        (handle_groupchat_message cfg s msg now).1.silent = false ∧
        (handle_groupchat_message cfg s msg now).2
          = some ("thanks, ".toList ++ lower (nicefrom msg.from_resource))) := by
  constructor
  · intro meT meT' chT chT'
    unfold handle_groupchat_message
    cases s.startup with
    | some g =>
      by_cases hn : now < g
      · simp [hn]
      · simp only [hn, if_false]
        exact handle_decoded_tables_silent cfg meT meT' chT chT' _ msg now hsil
    | none => exact handle_decoded_tables_silent cfg meT meT' chT chT' s msg now hsil
  · intro b hst hb hig ha hok hq
    rw [handle_no_startup _ _ _ _ hst, handle_decoded_addressed _ _ _ _ b hb hig ha]
    simp only [hq, Bool.false_eq_true, if_false, hok, if_true]
    unfold send_to_chat
    exact ⟨by rw [update_message_state_silent], rfl⟩

/-- Bot configuration of the end-to-end scenario: names = ["zbot"], nobody
ignored, both response tables empty. -/
def cfg_zbot : Config where
  my_names := ["zbot".toList]
  ignore_from := []
  me_responds := []
  chat_responds := []

/-- An Active conversation state past the startup grace window. -/
def active_state : BotState where
  prev_message := []
  curr_message := some []
  timeout := none
  silent := false
  startup := none

/-- The Silenced counterpart of `active_state`. -/
def silenced_state : BotState where
  prev_message := []
  curr_message := some []
  timeout := none
  silent := true
  startup := none

/-- An addressed resume message from Alice. -/
def okay_msg : Msg where
  from_resource := "Alice_Desktop".toList
  body := some "okay zbot".toList

/-- Witness for C2: a silenced bot receiving "okay zbot" is unsilenced and
thanks the sender. -/
theorem C2_silence_gate_witness :
    (handle_groupchat_message cfg_zbot silenced_state okay_msg 0).1.silent = false ∧
    (handle_groupchat_message cfg_zbot silenced_state okay_msg 0).2
        = some ("thanks, ".toList ++ lower (nicefrom okay_msg.from_resource)) :=
  (C2_silence_gate cfg_zbot silenced_state okay_msg 0 rfl).2
    "okay zbot".toList rfl rfl (by decide) (by decide) (by decide) (by decide)

/-! ## C3: timeout gate -/

/-- C3. Timeout gate: (a) an addressed take-a-break / enough / hush command
(not preempted by the earlier quiet and okay rules) sets the timeout expiry to
exactly `now + 10` minutes and is answered, whatever the current timeout
state; (b) while a timeout is pending and unexpired (`now < e`), a
non-addressed message gets no reply and leaves the timeout in place; (c) a
non-addressed message processed at or past the expiry (`e ≤ now`) clears the
timeout to `None`, still with no reply. -/
theorem C3_timeout_gate (cfg : Config) (s : BotState) (msg : Msg) (now : Nat) (b : List Char)
    (hst : s.startup = none) (hb : msg.body = some b)
    (hig : cfg.ignore_from.contains (lower msg.from_resource) = false) :
    (addressed cfg.my_names (lower b) = true →
      matches_quiet (lower b) = false → matches_okay (lower b) = false →
      matches_timeout (lower b) = true →
      (handle_groupchat_message cfg s msg now).1.timeout = some (now + 10) ∧
      (handle_groupchat_message cfg s msg now).2 = some timeout_reply) ∧
    (∀ e, addressed cfg.my_names (lower b) = false → s.silent = false →
      s.timeout = some e → now < e →
      (handle_groupchat_message cfg s msg now).2 = none ∧
      (handle_groupchat_message cfg s msg now).1.timeout = some e) ∧
    (∀ e, addressed cfg.my_names (lower b) = false → s.silent = false →
      s.timeout = some e → e ≤ now →
      (handle_groupchat_message cfg s msg now).1.timeout = none ∧
      (handle_groupchat_message cfg s msg now).2 = none) := by
  refine ⟨?_, ?_, ?_⟩
  · intro ha hq hok ht
    rw [handle_no_startup _ _ _ _ hst, handle_decoded_addressed _ _ _ _ b hb hig ha]
    simp only [hq, Bool.false_eq_true, if_false, hok, ht, if_true]
    unfold send_to_chat
    exact ⟨by rw [update_message_state_timeout], rfl⟩
  · intro e ha hsil htime hn
    rw [handle_no_startup _ _ _ _ hst, handle_decoded_not_addressed _ _ _ _ b hb hig ha]
    unfold silence_timeout_tail
    simp [hsil, htime, hn, update_message_state_timeout]
  · intro e ha hsil htime hn
    rw [handle_no_startup _ _ _ _ hst, handle_decoded_not_addressed _ _ _ _ b hb hig ha]
    unfold silence_timeout_tail
    have hn' : ¬ now < e := Nat.not_lt.mpr hn
    simp [hsil, htime, hn']

/-- An addressed hush command from Bob. -/
def hush_msg : Msg where
  from_resource := "Bob".toList
  body := some "zbot hush".toList

/-- Witness for C3: "zbot hush" at minute 5 sets the timeout expiry to
minute 15 and is answered. -/
theorem C3_timeout_gate_witness :
    (handle_groupchat_message cfg_zbot active_state hush_msg 5).1.timeout = some 15 ∧
    (handle_groupchat_message cfg_zbot active_state hush_msg 5).2 = some timeout_reply :=
  (C3_timeout_gate cfg_zbot active_state hush_msg 5 "zbot hush".toList rfl rfl
      (by decide)).1 (by decide) (by decide) (by decide) (by decide)

/-! ## C4: end-to-end control scenario -/

/-- The message "zbot quiet" from Alice. -/
def zbot_quiet_msg : Msg where
  from_resource := "Alice_Desktop".toList
  body := some "zbot quiet".toList

/-- The message "quiet zbot" from Alice. -/
def quiet_msg : Msg where
  from_resource := "Alice_Desktop".toList
  body := some "quiet zbot".toList

/-- Counterexample to C4: the quiet pattern `^(be )?quiet\b` is anchored at
line start, so "zbot quiet" matches no control rule: the Active bot sends no
reply and does not become silenced. -/
theorem C4_counterexample :
    (handle_groupchat_message cfg_zbot active_state zbot_quiet_msg 0).2 = none ∧
    (handle_groupchat_message cfg_zbot active_state zbot_quiet_msg 0).1.silent = false := by
  decide

/-- C4 (amended). The control scenario holds with the command word first:
"quiet zbot" from Alice_Desktop is answered "sorry. i'll put a lid on it." and
silences the bot; the follow-up "okay zbot" is answered
"thanks, alice_desktop" and returns it to Active. -/
theorem C4_control_scenario :
    handle_groupchat_message cfg_zbot active_state quiet_msg 0
      = ({ prev_message := "quiet zbot".toList, curr_message := none, timeout := none,
           silent := true, startup := none }, some quiet_reply) ∧
    handle_groupchat_message cfg_zbot
        { prev_message := "quiet zbot".toList, curr_message := none, timeout := none,
          silent := true, startup := none } okay_msg 1
      = ({ prev_message := "okay zbot".toList, curr_message := none, timeout := none,
           silent := false, startup := none }, some "thanks, alice_desktop".toList) := by
  decide

/-! ## C5: the generic table is never consulted -/

/-- The whole dispatcher never reads `chat_responds`. -/
lemma handle_chat_responds (cfg : Config) (chT : List TableEntry) (s : BotState) (msg : Msg)
    (now : Nat) :
    handle_groupchat_message { cfg with chat_responds := chT } s msg now
      = handle_groupchat_message cfg s msg now := rfl

/-- Any dispatcher pass on a non-addressed decoded message replies nothing. -/
lemma reply_none_of_not_addressed (cfg : Config) (s : BotState) (msg : Msg) (now : Nat)
    (b : List Char) (hb : msg.body = some b)
    (ha : addressed cfg.my_names (lower b) = false) :
    (handle_groupchat_message cfg s msg now).2 = none := by
  have key : ∀ s' : BotState, (handle_decoded cfg s' msg now).2 = none := by
    intro s'
    cases hig : cfg.ignore_from.contains (lower msg.from_resource) with
    | true => rw [handle_decoded_ignored _ _ _ _ b hb hig]
    | false =>
      rw [handle_decoded_not_addressed _ _ _ _ b hb hig ha]
      exact silence_timeout_tail_snd _ _
  unfold handle_groupchat_message
  cases s.startup with
  | some g => by_cases hn : now < g <;> simp [hn, key]
  | none => exact key s

/-- C5. A non-addressed group-chat message never produces a reply, and the
dispatcher's outcome (for any message, in any state) is independent of the
generic `chat_responds` table: the generic table is never consulted. -/
theorem C5_not_addressed_no_reply (cfg : Config) (s : BotState) (msg : Msg) (now : Nat) :
    (∀ chT chT',
        handle_groupchat_message { cfg with chat_responds := chT } s msg now
          = handle_groupchat_message { cfg with chat_responds := chT' } s msg now) ∧
    (∀ b, msg.body = some b → addressed cfg.my_names (lower b) = false →
        (handle_groupchat_message cfg s msg now).2 = none) := by
  constructor
  · intro chT chT'
    exact (handle_chat_responds cfg chT s msg now).trans
      (handle_chat_responds cfg chT' s msg now).symm
  · intro b hb ha
    exact reply_none_of_not_addressed cfg s msg now b hb ha

/-- A non-addressed greeting from Bob. -/
def hello_msg : Msg where
  from_resource := "Bob".toList
  body := some "hello everyone".toList

/-- Witness for C5: "hello everyone" while Active and past grace draws no
reply, even though the generic table could match it. -/
theorem C5_not_addressed_no_reply_witness :
    (handle_groupchat_message cfg_zbot active_state hello_msg 5).2 = none :=
  (C5_not_addressed_no_reply cfg_zbot active_state hello_msg 5).2
    "hello everyone".toList rfl (by decide)

/-! ## C6: startup grace -/

/-- C6. Startup grace: while the startup guard is set and not yet elapsed the
dispatcher returns the state unchanged (every field) and replies nothing,
whatever the message; in particular a freshly (re)connected bot (guard
`t0 + 1`, one minute out) discards every message with `now < t0 + 1`. -/
theorem C6_startup_grace (cfg : Config) (msg : Msg) (now : Nat) :
    (∀ (s : BotState) (g : Nat), s.startup = some g → now < g →
        handle_groupchat_message cfg s msg now = (s, none)) ∧
    (∀ t0, now < initial_startup t0 →
        handle_groupchat_message cfg (initial_state t0) msg now = (initial_state t0, none)) := by
  have H : ∀ (s : BotState) (g : Nat), s.startup = some g → now < g →
      handle_groupchat_message cfg s msg now = (s, none) := by
    intro s g hg hn
    simp [handle_groupchat_message, hg, hn]
  exact ⟨H, fun t0 hn => H (initial_state t0) (initial_startup t0) rfl hn⟩

/-- Witness for C6: a control message arriving at connect time is discarded. -/
theorem C6_startup_grace_witness :
    handle_groupchat_message cfg_zbot (initial_state 0) quiet_msg 0 = (initial_state 0, none) :=
  (C6_startup_grace cfg_zbot quiet_msg 0).2 0 (by decide)

/-! ## C7: message-state bookkeeping -/

/-- No name matches inside the empty text (the addressing regex cannot fire). -/
lemma addressed_nil_text (names : List (List Char)) : addressed names [] = false := rfl

/-- An addressed text is non-empty. -/
lemma addressed_ne_nil (names : List (List Char)) (t : List Char)
    (h : addressed names t = true) : t ≠ [] := by
  intro he
  rw [he, addressed_nil_text] at h
  exact Bool.noConfusion h

/-- Counterexample to C7: an Active pass on a non-addressed message records
`curr_message` and then falls off the end of the dispatcher without running
`update_message_state`: the current message is neither cleared nor shifted. -/
theorem C7_counterexample :
    (handle_groupchat_message cfg_zbot active_state hello_msg 5).1.curr_message
        = some "hello everyone".toList ∧
    (handle_groupchat_message cfg_zbot active_state hello_msg 5).1.prev_message = [] ∧
    (handle_groupchat_message cfg_zbot active_state hello_msg 5).2 = none := by
  decide

/-- C7 (amended). `update_message_state` itself shifts a recorded non-empty
current message into `prev_message` and clears `curr_message`; the dispatcher
runs it on every pass that sends a reply, so such a pass ends with
`curr_message` cleared and `prev_message` holding the just-processed
lowercased body. Passes that fall through without replying (as in the
counterexample) may leave `curr_message` set. -/
theorem C7_reply_pass_shifts_message (cfg : Config) (s : BotState) (msg : Msg) (now : Nat)
    (b r : List Char) (hst : s.startup = none) (hb : msg.body = some b)
    (hr : (handle_groupchat_message cfg s msg now).2 = some r) :
    (∀ (s0 : BotState) (m : List Char), s0.curr_message = some m → m ≠ [] →
        update_message_state s0 = { s0 with prev_message := m, curr_message := none }) ∧
    ((handle_groupchat_message cfg s msg now).1.curr_message = none ∧
     (handle_groupchat_message cfg s msg now).1.prev_message = lower b) := by
  refine ⟨update_message_state_of_curr, ?_⟩
  rw [handle_no_startup _ _ _ _ hst] at hr ⊢
  cases hig : cfg.ignore_from.contains (lower msg.from_resource) with
  | true =>
    rw [handle_decoded_ignored _ _ _ _ b hb hig] at hr
    exact absurd hr (by simp)
  | false =>
    cases ha : addressed cfg.my_names (lower b) with
    | false =>
      rw [handle_decoded_not_addressed _ _ _ _ b hb hig ha, silence_timeout_tail_snd] at hr
      exact absurd hr (by simp)
    | true =>
      have hne : lower b ≠ [] := addressed_ne_nil cfg.my_names (lower b) ha
      rw [handle_decoded_addressed _ _ _ _ b hb hig ha] at hr ⊢
      by_cases h1 : matches_quiet (lower b)
      · simp only [h1, if_true]
        unfold send_to_chat
        rw [update_message_state_of_curr _ (lower b) rfl hne]
        exact ⟨rfl, rfl⟩
      · by_cases h2 : matches_okay (lower b)
        · simp only [h1, Bool.false_eq_true, if_false, h2, if_true]
          unfold send_to_chat
          rw [update_message_state_of_curr _ (lower b) rfl hne]
          exact ⟨rfl, rfl⟩
        · by_cases h3 : matches_timeout (lower b)
          · simp only [h1, h2, Bool.false_eq_true, if_false, h3, if_true]
            unfold send_to_chat
            rw [update_message_state_of_curr _ (lower b) rfl hne]
            exact ⟨rfl, rfl⟩
          · simp only [h1, h2, h3, Bool.false_eq_true, if_false] at hr ⊢
            by_cases hs : s.silent = true
            · rw [if_pos hs] at hr
              exact absurd hr (by simp)
            · rw [if_neg hs] at hr ⊢
              cases htl : table_lookup cfg.me_responds (lower b) with
              | none =>
                rw [htl] at hr
                simp only [silence_timeout_tail_snd] at hr
                exact absurd hr (by simp)
              | some tmpl =>
                simp [send_to_chat,
                  update_message_state_of_curr { s with curr_message := some (lower b) }
                    (lower b) rfl hne]

/-- Witness for C7 (amended): the reply pass on "quiet zbot" clears
`curr_message` and shifts the text into `prev_message`. -/
theorem C7_reply_pass_shifts_message_witness :
    (handle_groupchat_message cfg_zbot active_state quiet_msg 0).1.curr_message = none ∧
    (handle_groupchat_message cfg_zbot active_state quiet_msg 0).1.prev_message
        = lower "quiet zbot".toList :=
  (C7_reply_pass_shifts_message cfg_zbot active_state quiet_msg 0 "quiet zbot".toList
      quiet_reply rfl rfl (by decide)).2

/-! ## C8: malformed input -/

/-- C8. A message whose body cannot be decoded is dropped: no reply, and
`curr_message`, `prev_message`, `silent` and `timeout` are all unchanged. -/
theorem C8_malformed_body (cfg : Config) (s : BotState) (msg : Msg) (now : Nat)
    (hb : msg.body = none) :
    (handle_groupchat_message cfg s msg now).2 = none ∧
    (handle_groupchat_message cfg s msg now).1.curr_message = s.curr_message ∧
    (handle_groupchat_message cfg s msg now).1.prev_message = s.prev_message ∧
    (handle_groupchat_message cfg s msg now).1.silent = s.silent ∧
    (handle_groupchat_message cfg s msg now).1.timeout = s.timeout := by
  unfold handle_groupchat_message
  cases s.startup with
  | some g =>
    by_cases hn : now < g
    · simp [hn]
    · simp [hn, handle_decoded_no_body _ _ _ _ hb]
  | none => simp [handle_decoded_no_body _ _ _ _ hb]

/-- A stanza whose body failed to decode. -/
def bad_msg : Msg where
  from_resource := "Eve".toList
  body := none

/-- Witness for C8 at a concrete undecodable message. -/
theorem C8_malformed_body_witness :
    (handle_groupchat_message cfg_zbot active_state bad_msg 3).2 = none ∧
    (handle_groupchat_message cfg_zbot active_state bad_msg 3).1.curr_message
        = active_state.curr_message ∧
    (handle_groupchat_message cfg_zbot active_state bad_msg 3).1.prev_message
        = active_state.prev_message ∧
    (handle_groupchat_message cfg_zbot active_state bad_msg 3).1.silent
        = active_state.silent ∧
    (handle_groupchat_message cfg_zbot active_state bad_msg 3).1.timeout
        = active_state.timeout :=
  C8_malformed_body cfg_zbot active_state bad_msg 3 rfl

/-! ## C9: ignored senders -/

/-- Configuration that ignores the lowercased sender "spammer". -/
def cfg_ignore : Config where
  my_names := ["zbot".toList]
  ignore_from := ["spammer".toList]
  me_responds := []
  chat_responds := []

/-- A message from the ignored sender. -/
def spam_msg : Msg where
  from_resource := "Spammer".toList
  body := some "zbot hello".toList

/-- Counterexample to C9: the dispatcher records `curr_message` before the
ignore check, so a message from an ignored sender does mutate `curr_message`. -/
theorem C9_counterexample :
    (handle_groupchat_message cfg_ignore active_state spam_msg 3).1.curr_message
        = some "zbot hello".toList ∧
    (handle_groupchat_message cfg_ignore active_state spam_msg 3).1.curr_message
        ≠ active_state.curr_message := by
  decide

/-- C9 (amended). A message from an ignored sender is discarded with no reply
and with `prev_message`, `silent` and `timeout` unchanged, but only after the
lowercased body has been recorded as `curr_message`: the recording happens
before the ignore check. -/
theorem C9_ignored_sender (cfg : Config) (s : BotState) (msg : Msg) (now : Nat) (b : List Char)
    (hst : s.startup = none) (hb : msg.body = some b)
    (hig : cfg.ignore_from.contains (lower msg.from_resource) = true) :
    handle_groupchat_message cfg s msg now
      = ({ s with curr_message := some (lower b) }, none) := by
  rw [handle_no_startup _ _ _ _ hst]
  exact handle_decoded_ignored _ _ _ _ b hb hig

/-- Witness for C9 (amended) at the concrete ignored sender. -/
theorem C9_ignored_sender_witness :
    handle_groupchat_message cfg_ignore active_state spam_msg 3
      = ({ active_state with curr_message := some (lower "zbot hello".toList) }, none) :=
  C9_ignored_sender cfg_ignore active_state spam_msg 3 "zbot hello".toList rfl rfl (by decide)

/-! ## C10: empty name list degenerates the addressing pattern -/

lemma wordAt_eq_true_iff (t : List Char) (i : Nat) :
    wordAt t i = true ↔ ∃ c, t.get? i = some c ∧ isWordChar c = true := by
  unfold wordAt
  cases hg : t.get? i with
  | none => simp
  | some c => simp

lemma any_isWordChar_iff (t : List Char) :
    t.any isWordChar = true ↔ ∃ i, wordAt t i = true := by
  constructor
  · intro h
    rcases List.any_eq_true.mp h with ⟨c, hc, hwc⟩
    rcases List.mem_iff_get?.mp hc with ⟨j, hj⟩
    exact ⟨j, (wordAt_eq_true_iff t j).mpr ⟨c, hj, hwc⟩⟩
  · rintro ⟨i, hi⟩
    rcases (wordAt_eq_true_iff t i).mp hi with ⟨c, hc, hwc⟩
    exact List.any_eq_true.mpr ⟨c, List.get?_mem hc, hwc⟩

/-- Configuration with no bot names: the addressing pattern is `\b()\b`. -/
def cfg_no_names : Config where
  my_names := []
  ignore_from := []
  me_responds := []
  chat_responds := []

/-- A message containing no bot name at all. -/
def hush_noname_msg : Msg where
  from_resource := "Bob".toList
  body := some "hush".toList

/-- C10. With an empty name list the addressing pattern `\b()\b` matches
exactly the texts containing a word character, so any such message is
classified as addressed; concretely, the bare message "hush" (no bot name)
is routed through the addressed path and fires the timeout control rule. -/
theorem C10_empty_names_addressing :
    (∀ t, addressed [] t = true ↔ t.any isWordChar = true) ∧
    handle_groupchat_message cfg_no_names active_state hush_noname_msg 5
      = ({ prev_message := "hush".toList, curr_message := none, timeout := some 15,
           silent := false, startup := none }, some timeout_reply) := by
  constructor
  · intro t
    rw [any_isWordChar_iff]
    constructor
    · intro h
      rcases List.any_eq_true.mp h with ⟨i, hmem, hcond⟩
      rw [Bool.and_eq_true] at hcond
      have hbd : boundary t i = true := hcond.1
      unfold boundary at hbd
      cases hw : wordAt t i with
      | true => exact ⟨i, hw⟩
      | false =>
        rw [hw] at hbd
        by_cases hi0 : i = 0
        · rw [if_pos hi0] at hbd
          exact absurd hbd (by decide)
        · rw [if_neg hi0] at hbd
          cases hw2 : wordAt t (i - 1) with
          | true => exact ⟨i - 1, hw2⟩
          | false =>
            rw [hw2] at hbd
            exact absurd hbd (by decide)
    · rintro ⟨i, hi⟩
      have hex : ∃ k, wordAt t k = true := ⟨i, hi⟩
      have hk : wordAt t (Nat.find hex) = true := Nat.find_spec hex
      refine List.any_eq_true.mpr ⟨Nat.find hex, ?_, ?_⟩
      · rcases (wordAt_eq_true_iff t _).mp hk with ⟨c, hc, -⟩
        obtain ⟨hlt, -⟩ := List.get?_eq_some.mp hc
        exact List.mem_range.mpr (Nat.lt_succ_of_lt hlt)
      · rw [Bool.and_eq_true]
        refine ⟨?_, rfl⟩
        unfold boundary
        rw [hk]
        by_cases h0 : Nat.find hex = 0
        · rw [if_pos h0]
          decide
        · rw [if_neg h0]
          have hlt' : Nat.find hex - 1 < Nat.find hex :=
            Nat.sub_lt (Nat.pos_of_ne_zero h0) Nat.one_pos
          have hmin := Nat.find_min hex hlt'
          cases hw2 : wordAt t (Nat.find hex - 1) with
          | true => exact absurd hw2 hmin
          | false => decide
  · decide

end Chatbot
